import Mathlib

/-!
Shallow embedding of the scheduling and dispatch core of the
AI-AUTOMATION repository (src/app/tasks/posting_tasks.py,
src/app/tasks/scheduling_tasks.py, src/app/api/scheduling.py,
src/app/models/models.py), together with theorems settling the
frozen claims about it.

Python `datetime` values are embedded as a record of calendar
fields; comparison of two datetimes is field-lexicographic, which
we realise through an injective-on-valid-values numeric key.
Fallible operations (Python exceptions such as `ValueError` from
`datetime.replace`, `IndexError` from list indexing) are embedded
as `Option` / `Except` / dedicated result constructors.
-/

namespace Automation

/-- Embedding of a Python `datetime.datetime` (naive, proleptic
Gregorian, microsecond precision) as its calendar fields. -/
structure DateTime where
  year : Nat
  month : Nat
  day : Nat
  hour : Nat
  minute : Nat
  second : Nat
  microsecond : Nat
deriving DecidableEq, Repr

/-- Leap-year rule of the proleptic Gregorian calendar (as used by
Python `datetime`). -/
def isLeapYear (y : Nat) : Bool :=
  (y % 4 == 0 && y % 100 != 0) || y % 400 == 0

/-- Number of days in a month (months numbered 1..12; the catch-all
is irrelevant for valid dates). -/
def daysInMonth (y m : Nat) : Nat :=
  match m with
  | 1 => 31
  | 2 => if isLeapYear y then 29 else 28
  | 3 => 31
  | 4 => 30
  | 5 => 31
  | 6 => 30
  | 7 => 31
  | 8 => 31
  | 9 => 30
  | 10 => 31
  | 11 => 30
  | 12 => 31
  | _ => 31

/-- Validity of the calendar fields, exactly the set of values a
Python `datetime` can hold. -/
def DateTime.Valid (dt : DateTime) : Prop :=
  1 ≤ dt.month ∧ dt.month ≤ 12 ∧ 1 ≤ dt.day ∧ dt.day ≤ daysInMonth dt.year dt.month ∧
  dt.hour ≤ 23 ∧ dt.minute ≤ 59 ∧ dt.second ≤ 59 ∧ dt.microsecond ≤ 999999

instance (dt : DateTime) : Decidable dt.Valid := by
  unfold DateTime.Valid; infer_instance

/-- Position of the date within an (over-approximated) linear day
grid: strictly monotone in (year, month, day) lexicographically for
valid dates. -/
def dateOffset (dt : DateTime) : Nat :=
  (dt.day - 1) + 31 * (dt.month - 1) + 372 * dt.year

/-- Microseconds since midnight. -/
def timeOffset (dt : DateTime) : Nat :=
  dt.microsecond + 1000000 * dt.second + 60000000 * dt.minute + 3600000000 * dt.hour

/-- Numeric key realising Python's field-lexicographic comparison of
datetimes (injective and order-reflecting on valid values). -/
def key (dt : DateTime) : Nat :=
  dateOffset dt * 86400000000 + timeOffset dt

/-- Embedding of Python `<=` on datetimes. -/
def DateTime.le (a b : DateTime) : Prop := key a ≤ key b

/-- Embedding of Python `<` on datetimes. -/
def DateTime.lt (a b : DateTime) : Prop := key a < key b

instance (a b : DateTime) : Decidable (a.le b) := by
  unfold DateTime.le; infer_instance

instance (a b : DateTime) : Decidable (a.lt b) := by
  unfold DateTime.lt; infer_instance

theorem daysInMonth_le_31 (y m : Nat) : daysInMonth y m ≤ 31 := by
  unfold daysInMonth
  split <;> first | omega | split <;> omega

theorem daysInMonth_pos (y m : Nat) : 1 ≤ daysInMonth y m := by
  unfold daysInMonth
  split <;> first | omega | split <;> omega

theorem timeOffset_lt_day (dt : DateTime) (h : dt.Valid) :
    timeOffset dt < 86400000000 := by
  obtain ⟨_, _, _, _, h5, h6, h7, h8⟩ := h
  unfold timeOffset
  omega

theorem key_lt_of_dateOffset_lt (a b : DateTime) (ha : a.Valid)
    (h : dateOffset a < dateOffset b) : key a < key b := by
  have := timeOffset_lt_day a ha
  unfold key
  have : dateOffset a * 86400000000 + timeOffset a < (dateOffset a + 1) * 86400000000 := by
    omega
  calc dateOffset a * 86400000000 + timeOffset a
      < (dateOffset a + 1) * 86400000000 := this
    _ ≤ dateOffset b * 86400000000 := by
        have : dateOffset a + 1 ≤ dateOffset b := h
        exact Nat.mul_le_mul_right _ this
    _ ≤ dateOffset b * 86400000000 + timeOffset b := Nat.le_add_right _ _

/-- Moving one day forward in the calendar (the day-level step of
Python `timedelta(days=1)` addition; time fields unchanged). -/
def addOneDay (dt : DateTime) : DateTime :=
  if dt.day < daysInMonth dt.year dt.month then
    { dt with day := dt.day + 1 }
  else if dt.month < 12 then
    { dt with month := dt.month + 1, day := 1 }
  else
    { dt with year := dt.year + 1, month := 1, day := 1 }

theorem addOneDay_valid (dt : DateTime) (h : dt.Valid) : (addOneDay dt).Valid := by
  obtain ⟨h1, h2, h3, h4, h5, h6, h7, h8⟩ := h
  have p1 := daysInMonth_pos dt.year (dt.month + 1)
  have p2 := daysInMonth_pos (dt.year + 1) 1
  unfold addOneDay
  split
  · simp only [DateTime.Valid]; omega
  · split
    · simp only [DateTime.Valid]; omega
    · simp only [DateTime.Valid]; omega

theorem addOneDay_dateOffset (dt : DateTime) (h : dt.Valid) :
    dateOffset dt < dateOffset (addOneDay dt) := by
  obtain ⟨h1, h2, h3, h4, h5, h6, h7, h8⟩ := h
  have hle := daysInMonth_le_31 dt.year dt.month
  unfold addOneDay
  split
  · simp only [dateOffset]; omega
  · split
    · simp only [dateOffset]; omega
    · simp only [dateOffset]; omega

/-- Day-field part of adding `n` days. -/
def addDays : Nat → DateTime → DateTime
  | 0, dt => dt
  | n + 1, dt => addDays n (addOneDay dt)

theorem addDays_valid (n : Nat) (dt : DateTime) (h : dt.Valid) :
    (addDays n dt).Valid := by
  induction n generalizing dt with
  | zero => exact h
  | succ n ih => exact ih (addOneDay dt) (addOneDay_valid dt h)

theorem addDays_dateOffset_le (n : Nat) (dt : DateTime) (h : dt.Valid) :
    dateOffset dt ≤ dateOffset (addDays n dt) := by
  induction n generalizing dt with
  | zero => exact Nat.le_refl _
  | succ n ih =>
    have h1 := addOneDay_dateOffset dt h
    have h2 := ih (addOneDay dt) (addOneDay_valid dt h)
    exact Nat.le_trans (Nat.le_of_lt h1) h2

theorem addDays_dateOffset_lt (n : Nat) (dt : DateTime) (h : dt.Valid)
    (hn : 1 ≤ n) : dateOffset dt < dateOffset (addDays n dt) := by
  match n, hn with
  | n + 1, _ =>
    have h1 := addOneDay_dateOffset dt h
    have h2 := addDays_dateOffset_le n (addOneDay dt) (addOneDay_valid dt h)
    exact Nat.lt_of_lt_of_le h1 h2

/-- Moving one day backward in the calendar (for Python
`timedelta` with negative days). -/
def subOneDay (dt : DateTime) : DateTime :=
  if 1 < dt.day then
    { dt with day := dt.day - 1 }
  else if 1 < dt.month then
    { dt with month := dt.month - 1, day := daysInMonth dt.year (dt.month - 1) }
  else
    { dt with year := dt.year - 1, month := 12, day := 31 }

/-- Day-field part of subtracting `n` days. -/
def subDays : Nat → DateTime → DateTime
  | 0, dt => dt
  | n + 1, dt => subDays n (subOneDay dt)

/-- `dt + timedelta(days=k)` for a possibly negative `k` (time
fields unchanged). -/
def addDaysInt (dt : DateTime) (k : Int) : DateTime :=
  if 0 ≤ k then addDays k.toNat dt else subDays (-k).toNat dt

/-- `dt + timedelta(hours=1)` (with rollover into the next day). -/
def addOneHour (dt : DateTime) : DateTime :=
  if dt.hour < 23 then { dt with hour := dt.hour + 1 }
  else { addOneDay dt with hour := 0 }

/-- Cumulative days before month `m` in year `y` (month numbered
1..12). -/
def daysBeforeMonth (y m : Nat) : Nat :=
  (match m with
   | 1 => 0
   | 2 => 31
   | 3 => 59
   | 4 => 90
   | 5 => 120
   | 6 => 151
   | 7 => 181
   | 8 => 212
   | 9 => 243
   | 10 => 273
   | 11 => 304
   | 12 => 334
   | _ => 0) + (if 3 ≤ m ∧ isLeapYear y then 1 else 0)

/-- Days elapsed since 0001-01-01 in the proleptic Gregorian
calendar (Python `date.toordinal() - 1`). -/
def totalDays (dt : DateTime) : Nat :=
  365 * (dt.year - 1) + ((dt.year - 1) / 4 + (dt.year - 1) / 400 - (dt.year - 1) / 100)
    + daysBeforeMonth dt.year dt.month + (dt.day - 1)

/-- Embedding of Python `datetime.weekday()`: Monday = 0 through
Sunday = 6 (0001-01-01 was a Monday). -/
def weekdayNat (dt : DateTime) : Nat :=
  totalDays dt % 7

theorem weekdayNat_lt_7 (dt : DateTime) : weekdayNat dt < 7 :=
  Nat.mod_lt _ (by omega)

/-!  Data model (src/app/models/models.py, `Schedule` and `Post`
tables restricted to the columns the scheduling/dispatch core reads
or writes).  The JSON `schedule_data` column is embedded with its
keys already parsed: `time` holds the `(hour, minute)` pair produced
by `map(int, time_str.split(":"))`, `datetime_` holds the instant
produced by `datetime.fromisoformat`, and `extra` stands for any
further keys (e.g. a custom cron expression) that the source never
reads.  A `none` field embeds an absent key, so `.getD` mirrors
Python `dict.get(key, default)`. -/

structure ScheduleData where
  time : Option (Nat × Nat)
  day_of_week : Option Int
  day_of_month : Option Nat
  datetime_ : Option DateTime
  extra : Option String
deriving DecidableEq, Repr

/-- One entry of the `content_queue` JSON column: a dict whose keys
the source reads with `.get(key, default)`. -/
structure ContentItem where
  title : Option String
  description : Option String
  file_path : Option String
  file_type : Option String
deriving DecidableEq, Repr

/-- The `schedules` table row (columns the core reads/writes). -/
structure Schedule where
  is_active : Bool
  schedule_type : String
  schedule_data : ScheduleData
  content_queue : List ContentItem
  current_index : Int
  target_platforms : List String
  last_executed : Option DateTime
  next_execution : Option DateTime
deriving DecidableEq, Repr

/-- The `posts` table row (columns `execute_schedule` and
`post_to_multiple_platforms` read/write). -/
structure Post where
  title : String
  description : String
  file_path : String
  file_type : String
  scheduled_time : DateTime
  status : String
  posted_at : Option DateTime
deriving DecidableEq, Repr

/-!  Embeddings of Python `datetime.replace(...)` calls.  Python
`replace` re-validates the resulting datetime and raises
`ValueError` on an out-of-range field; that is the `none` case. -/

/-- `dt.replace(hour=h, minute=m, second=0, microsecond=0)`. -/
def replaceTime (dt : DateTime) (h m : Nat) : Option DateTime :=
  if h ≤ 23 ∧ m ≤ 59 then
    some { dt with hour := h, minute := m, second := 0, microsecond := 0 }
  else none

/-- `dt.replace(day=d, hour=h, minute=m, second=0, microsecond=0)`. -/
def replaceDayTime (dt : DateTime) (d h m : Nat) : Option DateTime :=
  if 1 ≤ d ∧ d ≤ daysInMonth dt.year dt.month ∧ h ≤ 23 ∧ m ≤ 59 then
    some { dt with day := d, hour := h, minute := m, second := 0, microsecond := 0 }
  else none

/-- `dt.replace(month=mo)`. -/
def replaceMonth (dt : DateTime) (mo : Nat) : Option DateTime :=
  if 1 ≤ mo ∧ mo ≤ 12 ∧ dt.day ≤ daysInMonth dt.year mo then
    some { dt with month := mo }
  else none

/-- `dt.replace(year=y, month=mo)`. -/
def replaceYearMonth (dt : DateTime) (y mo : Nat) : Option DateTime :=
  if 1 ≤ mo ∧ mo ≤ 12 ∧ dt.day ≤ daysInMonth y mo then
    some { dt with year := y, month := mo }
  else none

/-- Embedding of `calculate_next_execution_time(schedule)`
(src/app/tasks/posting_tasks.py lines 333-375).  The source reads
the wall clock via `datetime.now()` at line 336; that clock reading
is the explicit `now` argument here.  A raised `ValueError` (from
`datetime.replace`) is the `.error` case. -/
def calculateNextExecutionTime (s : Schedule) (now : DateTime) : Except String DateTime :=
  let sd := s.schedule_data
  if s.schedule_type = "daily" then
    let t := sd.time.getD (9, 0)
    match replaceTime now t.1 t.2 with
    | none => .error "ValueError"
    | some next_run =>
      if next_run.le now then .ok (addDays 1 next_run) else .ok next_run
  else if s.schedule_type = "weekly" then
    let dow := sd.day_of_week.getD 1
    let t := sd.time.getD (9, 0)
    let diff : Int := dow - (weekdayNat now : Int)
    let days_ahead : Int := if diff ≤ 0 then diff + 7 else diff
    match replaceTime (addDaysInt now days_ahead) t.1 t.2 with
    | none => .error "ValueError"
    | some next_run => .ok next_run
  else if s.schedule_type = "monthly" then
    let dom := sd.day_of_month.getD 1
    let t := sd.time.getD (9, 0)
    match replaceDayTime now dom t.1 t.2 with
    | none => .error "ValueError"
    | some next_run =>
      if next_run.le now then
        if now.month = 12 then
          match replaceYearMonth next_run (now.year + 1) 1 with
          | none => .error "ValueError"
          | some r => .ok r
        else
          match replaceMonth next_run (now.month + 1) with
          | none => .error "ValueError"
          | some r => .ok r
      else .ok next_run
  else
    .ok (addOneHour now)

/-- Embedding of `calculate_next_execution(schedule_type, schedule_data)`
(src/app/api/scheduling.py lines 223-269).  Identical to the task-side
calculator on the daily/weekly/monthly branches; additionally has a
`once` branch (`datetime.fromisoformat(schedule_data.get("datetime"))`,
which raises `TypeError` when the key is absent) and sends every other
type, `custom` included, to the `now + 1 hour` placeholder. -/
def calculateNextExecutionApi (schedule_type : String) (sd : ScheduleData)
    (now : DateTime) : Except String DateTime :=
  if schedule_type = "once" then
    match sd.datetime_ with
    | none => .error "TypeError"
    | some d => .ok d
  else if schedule_type = "daily" then
    let t := sd.time.getD (9, 0)
    match replaceTime now t.1 t.2 with
    | none => .error "ValueError"
    | some next_run =>
      if next_run.le now then .ok (addDays 1 next_run) else .ok next_run
  else if schedule_type = "weekly" then
    let dow := sd.day_of_week.getD 1
    let t := sd.time.getD (9, 0)
    let diff : Int := dow - (weekdayNat now : Int)
    let days_ahead : Int := if diff ≤ 0 then diff + 7 else diff
    match replaceTime (addDaysInt now days_ahead) t.1 t.2 with
    | none => .error "ValueError"
    | some next_run => .ok next_run
  else if schedule_type = "monthly" then
    let dom := sd.day_of_month.getD 1
    let t := sd.time.getD (9, 0)
    match replaceDayTime now dom t.1 t.2 with
    | none => .error "ValueError"
    | some next_run =>
      if next_run.le now then
        if now.month = 12 then
          match replaceYearMonth next_run (now.year + 1) 1 with
          | none => .error "ValueError"
          | some r => .ok r
        else
          match replaceMonth next_run (now.month + 1) with
          | none => .error "ValueError"
          | some r => .ok r
      else .ok next_run
  else
    .ok (addOneHour now)

/-- Python list indexing `l[i]`: nonnegative indices from the front,
negative indices from the back, `none` embeds a raised `IndexError`. -/
def pyIndex (l : List α) (i : Int) : Option α :=
  if 0 ≤ i then l.get? i.toNat
  else if -(l.length : Int) ≤ i then l.get? (l.length - (-i).toNat)
  else none

/-- Result of one content-queue cursor step. -/
inductive CursorResult where
  | noContent
  | item (c : ContentItem) (next : Int)
  | indexError
deriving DecidableEq, Repr

/-- The content-queue cursor step of `execute_schedule`
(src/app/tasks/posting_tasks.py lines 257-265 and 288): empty queue
short-circuits; a stored index `≥ len(queue)` is reset to 0 before
indexing; the stored index is then advanced by `(i + 1) % len(queue)`
(Python `%`, hence nonnegative). -/
def advanceCursor (queue : List ContentItem) (cursor : Int) : CursorResult :=
  if queue = [] then .noContent
  else
    let ci : Int := if cursor ≥ (queue.length : Int) then 0 else cursor
    match pyIndex queue ci with
    | none => .indexError
    | some c => .item c ((ci + 1) % (queue.length : Int))

/-- Outcome of one delivery of the `execute_schedule` task body.
`errorAfterPost` embeds the path where `calculate_next_execution_time`
raises after the materialized Post was already committed (line 279),
so the Post persists but the schedule row is left unchanged. -/
inductive ExecResult where
  | skipped (reason : String)
  | executed (post : Post) (updated : Schedule)
  | errorAfterPost (post : Post) (msg : String)
  | indexError
deriving DecidableEq, Repr

/-- Embedding of the `execute_schedule` task body
(src/app/tasks/posting_tasks.py lines 246-302).  The two
`datetime.now()` readings (lines 274 and 289) and the one inside
`calculate_next_execution_time` are all the explicit `now` argument. -/
def executeSchedule (s : Schedule) (now : DateTime) : ExecResult :=
  if s.is_active = false then .skipped "Schedule not found or inactive"
  else
    match advanceCursor s.content_queue s.current_index with
    | .noContent => .skipped "No content in queue"
    | .indexError => .indexError
    | .item c next =>
      let post : Post :=
        { title := c.title.getD ""
          description := c.description.getD ""
          file_path := c.file_path.getD ""
          file_type := c.file_type.getD "image"
          scheduled_time := now
          status := "scheduled"
          posted_at := none }
      match calculateNextExecutionTime s now with
      | .error e => .errorAfterPost post e
      | .ok nxt =>
        .executed post
          { s with current_index := next
                   last_executed := some now
                   next_execution := some nxt }

/-- Number of Post rows a single delivery of `execute_schedule`
inserts and commits (the insert at lines 278-279 is committed before
the schedule row is updated, so it persists even on the error path). -/
def postsMaterialized : ExecResult → Nat
  | .executed _ _ => 1
  | .errorAfterPost _ _ => 1
  | _ => 0

/-- At-least-once redelivery of the same schedule tick for the same
schedule version: two workers both load the same schedule row
(line 251 — there is no version column, lock, or due-window check in
`execute_schedule`), both run the task body on it, and each
unconditionally inserts and commits its own Post; nothing in the
source discards or cancels a duplicate.  The value is the total
number of Post rows kept. -/
def sameVersionDoubleDelivery (s : Schedule) (now : DateTime) : Nat :=
  postsMaterialized (executeSchedule s now) + postsMaterialized (executeSchedule s now)

/-- Updated schedule row after one delivery of `execute_schedule`
(unchanged on the skip and error paths). -/
def schedAfter (s : Schedule) (now : DateTime) : Schedule :=
  match executeSchedule s now with
  | .executed _ s2 => s2
  | _ => s

/-- Per-platform outcome of one `service.post_content` attempt as
`post_to_multiple_platforms` observes it: no active social account,
a successful call returning a platform post id, or a raised
exception. -/
inductive POutcome where
  | noAccount
  | success (pid : String)
  | failure (err : String)
deriving DecidableEq, Repr

/-- Whether the outcome is counted as a success by the reduction. -/
def POutcome.isSuccess : POutcome → Bool
  | .success _ => true
  | _ => false

/-- One entry of the `results` list built by the loop of
`post_to_multiple_platforms` (lines 106-154). -/
structure PlatformResult where
  platform : String
  status : String
  detail : Option String
deriving DecidableEq, Repr

/-- The loop body for one platform (lines 119-154): a missing active
social account or a raised exception append a `failed` entry, a
successful call appends a `success` entry. -/
def resultFor (env : String → POutcome) (p : String) : PlatformResult :=
  match env p with
  | .noAccount => ⟨p, "failed", some "No active social account found"⟩
  | .success pid => ⟨p, "success", some pid⟩
  | .failure e => ⟨p, "failed", some e⟩

/-- Embedding of `post_to_multiple_platforms`
(src/app/tasks/posting_tasks.py lines 93-173).  `env` gives each
platform's outcome; `now` is the `datetime.now()` reading at
line 160.  Returns the updated Post row and the per-platform
`results` list (lines 156-166): `success_count > 0` sets status
`posted` or `partially_posted` and stamps `posted_at`; otherwise the
status becomes `failed` and `posted_at` is left untouched. -/
def postToMultiplePlatforms (post : Post) (platform_ids : List String)
    (env : String → POutcome) (now : DateTime) : Post × List PlatformResult :=
  let results := platform_ids.map (resultFor env)
  let success_count := results.countP (fun r => r.status == "success")
  let total_platforms := platform_ids.length
  let post2 :=
    if 0 < success_count then
      { post with
          status := if success_count = total_platforms then "posted" else "partially_posted"
          posted_at := some now }
    else
      { post with status := "failed" }
  (post2, results)

instance {ε α : Type} [DecidableEq ε] [DecidableEq α] : DecidableEq (Except ε α) :=
  fun a b =>
    match a, b with
    | .error e1, .error e2 =>
      if h : e1 = e2 then isTrue (h ▸ rfl) else isFalse (fun hh => h (by cases hh; rfl))
    | .error _, .ok _ => isFalse (fun hh => Except.noConfusion hh)
    | .ok _, .error _ => isFalse (fun hh => Except.noConfusion hh)
    | .ok a1, .ok a2 =>
      if h : a1 = a2 then isTrue (h ▸ rfl) else isFalse (fun hh => h (by cases hh; rfl))

/-- Validity of the recurrence parameters stored in `schedule_data`,
in the sense of the spec: in-range wall-clock time, `day_of_week`
in 1–7, `day_of_month` in 1–31 (each read with the source's
`dict.get` default when absent). -/
def ValidParams (sd : ScheduleData) : Prop :=
  (sd.time.getD (9, 0)).1 ≤ 23 ∧ (sd.time.getD (9, 0)).2 ≤ 59 ∧
  1 ≤ sd.day_of_week.getD 1 ∧ sd.day_of_week.getD 1 ≤ 7 ∧
  1 ≤ sd.day_of_month.getD 1 ∧ sd.day_of_month.getD 1 ≤ 31

instance (sd : ScheduleData) : Decidable (ValidParams sd) := by
  unfold ValidParams; infer_instance

/-!  Concrete fixtures used by the claim theorems and witnesses. -/

/-- `schedule_data` of a daily 09:00 schedule. -/
def sdDaily : ScheduleData := ⟨some (9, 0), none, none, none, none⟩

/-- `schedule_data` of a weekly schedule: `day_of_week = 3`
(Wednesday under the source's own "Monday = 1" convention),
time 09:00. -/
def sdWeekly3 : ScheduleData := ⟨some (9, 0), some 3, none, none, none⟩

/-- `schedule_data` of a monthly schedule on day 31 at 09:00. -/
def sdMonthly31 : ScheduleData := ⟨some (9, 0), none, some 31, none, none⟩

/-- `schedule_data` of a custom schedule whose expression is not
parsable by any grammar. -/
def sdCustomGarbage : ScheduleData := ⟨none, none, none, none, some "every 5 bananas"⟩

/-- A content item. -/
def itemA : ContentItem := ⟨some "a", some "da", some "a.png", some "image"⟩

/-- A second, distinct content item. -/
def itemB : ContentItem := ⟨some "b", some "db", some "b.png", some "image"⟩

/-- A third, distinct content item. -/
def itemC : ContentItem := ⟨some "c", some "dc", some "c.png", some "image"⟩

/-- An active daily schedule with a one-item queue. -/
def dailySchedule : Schedule :=
  ⟨true, "daily", sdDaily, [itemA], 0, ["instagram"], none, none⟩

/-- An active weekly (Wednesday 09:00) schedule. -/
def weeklySchedule : Schedule :=
  ⟨true, "weekly", sdWeekly3, [itemA], 0, ["instagram"], none, none⟩

/-- An active monthly (day 31, 09:00) schedule. -/
def monthlySchedule : Schedule :=
  ⟨true, "monthly", sdMonthly31, [itemA], 0, ["instagram"], none, none⟩

/-- An active `once` schedule, due at 2024-01-03 09:00. -/
def onceSchedule : Schedule :=
  ⟨true, "once", ⟨none, none, none, some ⟨2024, 1, 3, 9, 0, 0, 0⟩, none⟩,
   [itemA], 0, ["instagram"], none, some ⟨2024, 1, 3, 9, 0, 0, 0⟩⟩

/-- An active `custom` schedule with an unparsable expression. -/
def customSchedule : Schedule :=
  ⟨true, "custom", sdCustomGarbage, [itemA], 0, ["instagram"], none, none⟩

/-- Wednesday 2024-01-03, 10:00. -/
def wedTen : DateTime := ⟨2024, 1, 3, 10, 0, 0, 0⟩

/-- A fresh materialized post fixture (status `scheduled`,
`posted_at` unset). -/
def freshPost : Post :=
  ⟨"a", "da", "a.png", "image", wedTen, "scheduled", none⟩

/-- A per-platform outcome environment in which instagram succeeds
and every other platform raises. -/
def mixedEnv : String → POutcome :=
  fun p => if p = "instagram" then .success "ig1" else .failure "boom"

/-!  Helper lemmas for the aggregate-status reduction. -/

theorem countP_resultFor (ids : List String) (env : String → POutcome) :
    (ids.map (resultFor env)).countP (fun r => r.status == "success")
      = ids.countP (fun p => (env p).isSuccess) := by
  induction ids with
  | nil => rfl
  | cons a l ih =>
    simp only [List.map_cons, List.countP_cons, ih]
    cases h : env a <;> simp [resultFor, POutcome.isSuccess, h]

/-- C10: dispatching a Post to an empty platform list records zero
per-platform results, reduces the aggregate exactly like total
failure (`failed`), and leaves `posted_at` untouched. -/
theorem emptyPlatformListReducesToFailed (post : Post) (env : String → POutcome)
    (now : DateTime) :
    (postToMultiplePlatforms post [] env now).1.status = "failed" ∧
    (postToMultiplePlatforms post [] env now).1.posted_at = post.posted_at ∧
    (postToMultiplePlatforms post [] env now).2 = [] := by
  simp [postToMultiplePlatforms]

/-- C3: the aggregate status of a Post dispatched to N ≥ 1 platforms
is `posted` when all outcomes succeed, `failed` when all fail,
`partially_posted` when mixed, and is invariant under permuting the
order in which the outcomes arrive. -/
theorem aggregateStatusReduction (post : Post) (now : DateTime)
    (ids : List String) (env : String → POutcome) (hne : ids ≠ []) :
    ((∀ p ∈ ids, (env p).isSuccess = true) →
        (postToMultiplePlatforms post ids env now).1.status = "posted") ∧
    ((∀ p ∈ ids, (env p).isSuccess = false) →
        (postToMultiplePlatforms post ids env now).1.status = "failed") ∧
    ((∃ p ∈ ids, (env p).isSuccess = true) → (∃ p ∈ ids, (env p).isSuccess = false) →
        (postToMultiplePlatforms post ids env now).1.status = "partially_posted") ∧
    (∀ ids2, ids.Perm ids2 →
        (postToMultiplePlatforms post ids2 env now).1.status =
          (postToMultiplePlatforms post ids env now).1.status) := by
  have hlen : 0 < ids.length := List.length_pos.mpr hne
  refine ⟨?_, ?_, ?_, ?_⟩
  · intro hall
    have hcnt : ids.countP (fun p => (env p).isSuccess) = ids.length :=
      List.countP_eq_length.mpr hall
    simp only [postToMultiplePlatforms, countP_resultFor]
    rw [hcnt, if_pos hlen, if_pos rfl]
  · intro hall
    have hcnt : ids.countP (fun p => (env p).isSuccess) = 0 := by
      rw [List.countP_eq_zero]
      intro p hp
      simp [hall p hp]
    simp only [postToMultiplePlatforms, countP_resultFor]
    rw [hcnt, if_neg (by omega)]
  · rintro ⟨p, hp, hps⟩ ⟨q, hq, hqs⟩
    have hpos : 0 < ids.countP (fun p => (env p).isSuccess) :=
      List.countP_pos_iff.mpr ⟨p, hp, hps⟩
    have hne2 : ids.countP (fun p => (env p).isSuccess) ≠ ids.length := by
      intro h
      have := List.countP_eq_length.mp h q hq
      rw [hqs] at this
      exact Bool.false_ne_true this
    simp only [postToMultiplePlatforms, countP_resultFor]
    rw [if_pos hpos, if_neg hne2]
  · intro ids2 hperm
    have hcnt : ids2.countP (fun p => (env p).isSuccess)
        = ids.countP (fun p => (env p).isSuccess) := (hperm.countP_eq _).symm
    have hl : ids2.length = ids.length := hperm.length_eq.symm
    simp only [postToMultiplePlatforms, countP_resultFor]
    rw [hcnt, hl]

/-- Witness for C3 at a concrete mixed two-platform dispatch. -/
theorem aggregateStatusReduction_witness :
    (postToMultiplePlatforms freshPost ["instagram", "tiktok"] mixedEnv wedTen).1.status
      = "partially_posted" := by
  have h := aggregateStatusReduction freshPost wedTen ["instagram", "tiktok"] mixedEnv
    (by decide)
  exact h.2.2.1 ⟨"instagram", by decide, by decide⟩ ⟨"tiktok", by decide, by decide⟩

theorem valid_replaceTimeFields (now : DateTime) (hn : now.Valid) (h m : Nat)
    (hh : h ≤ 23) (hm : m ≤ 59) :
    DateTime.Valid { now with hour := h, minute := m, second := 0, microsecond := 0 } := by
  obtain ⟨h1, h2, h3, h4, h5, h6, h7, h8⟩ := hn
  simp only [DateTime.Valid]
  omega

theorem replaceDayTime_some {dt : DateTime} {d h m : Nat} {r : DateTime}
    (hrep : replaceDayTime dt d h m = some r) :
    1 ≤ d ∧ d ≤ daysInMonth dt.year dt.month ∧ r = { dt with day := d, hour := h, minute := m, second := 0, microsecond := 0 } := by
  unfold replaceDayTime at hrep
  split at hrep
  · rename_i hc
    simp only [Option.some.injEq] at hrep
    exact ⟨hc.1, hc.2.1, hrep.symm⟩
  · simp at hrep

theorem replaceMonth_some {dt : DateTime} {mo : Nat} {r : DateTime}
    (hrep : replaceMonth dt mo = some r) :
    r = { dt with month := mo } := by
  unfold replaceMonth at hrep
  split at hrep
  · simp only [Option.some.injEq] at hrep
    exact hrep.symm
  · simp at hrep

theorem replaceYearMonth_some {dt : DateTime} {y mo : Nat} {r : DateTime}
    (hrep : replaceYearMonth dt y mo = some r) :
    r = { dt with year := y, month := mo } := by
  unfold replaceYearMonth at hrep
  split at hrep
  · simp only [Option.some.injEq] at hrep
    exact hrep.symm
  · simp at hrep

/-- C4: for daily, weekly, and monthly schedules with valid
recurrence parameters, every instant the recurrence calculator
computes is strictly greater than the clock instant it was computed
from. -/
theorem nextExecutionStrictlyFuture (s : Schedule) (now t : DateTime)
    (hk : s.schedule_type = "daily" ∨ s.schedule_type = "weekly" ∨
      s.schedule_type = "monthly")
    (hp : ValidParams s.schedule_data) (hn : now.Valid)
    (hok : calculateNextExecutionTime s now = .ok t) :
    now.lt t := by
  obtain ⟨hp1, hp2, hp3, hp4, hp5, hp6⟩ := hp
  have hnn := hn
  unfold DateTime.Valid at hnn
  obtain ⟨hn1, hn2, hn3, hn4, hn5, hn6, hn7, hn8⟩ := hnn
  have hday31 : now.day ≤ 31 := by
    have := daysInMonth_le_31 now.year now.month
    omega
  rcases hk with hk | hk | hk
  · -- daily branch (lines 339-345 of posting_tasks.py)
    simp only [calculateNextExecutionTime, hk, String.reduceEq, reduceIte] at hok
    rw [replaceTime, if_pos ⟨hp1, hp2⟩] at hok
    simp only at hok
    have hcv := valid_replaceTimeFields now hn (s.schedule_data.time.getD (9, 0)).1
      (s.schedule_data.time.getD (9, 0)).2 hp1 hp2
    split at hok
    · simp only [Except.ok.injEq] at hok
      subst hok
      simp only [DateTime.lt]
      exact key_lt_of_dateOffset_lt now _ hn (addDays_dateOffset_lt 1 _ hcv (Nat.le_refl 1))
    · rename_i hnle
      simp only [Except.ok.injEq] at hok
      subst hok
      simp only [DateTime.le] at hnle
      simp only [DateTime.lt]
      omega
  · -- weekly branch (lines 347-358 of posting_tasks.py)
    simp only [calculateNextExecutionTime, hk, String.reduceEq, reduceIte] at hok
    rw [replaceTime, if_pos ⟨hp1, hp2⟩] at hok
    simp only [Except.ok.injEq] at hok
    subst hok
    simp only [DateTime.lt]
    have hwd : weekdayNat now < 7 := weekdayNat_lt_7 now
    have hda : 1 ≤ (if s.schedule_data.day_of_week.getD 1 - (weekdayNat now : Int) ≤ 0
        then s.schedule_data.day_of_week.getD 1 - (weekdayNat now : Int) + 7
        else s.schedule_data.day_of_week.getD 1 - (weekdayNat now : Int)) := by
      split <;> omega
    rw [addDaysInt, if_pos (by omega)]
    exact key_lt_of_dateOffset_lt now _ hn (addDays_dateOffset_lt _ now hn (by omega))
  · -- monthly branch (lines 360-372 of posting_tasks.py)
    simp only [calculateNextExecutionTime, hk, String.reduceEq, reduceIte] at hok
    cases hrep : replaceDayTime now (s.schedule_data.day_of_month.getD 1)
        (s.schedule_data.time.getD (9, 0)).1 (s.schedule_data.time.getD (9, 0)).2 with
    | none => rw [hrep] at hok; simp at hok
    | some cand =>
      rw [hrep] at hok
      simp only at hok
      obtain ⟨hd1, hd2, hcand⟩ := replaceDayTime_some hrep
      have hcy : cand.year = now.year := by rw [hcand]
      have hcm : cand.month = now.month := by rw [hcand]
      have hcd : cand.day = s.schedule_data.day_of_month.getD 1 := by rw [hcand]
      split at hok
      · split at hok
        · rename_i hle h12
          cases hrep2 : replaceYearMonth cand (now.year + 1) 1 with
          | none => rw [hrep2] at hok; simp at hok
          | some r =>
            rw [hrep2] at hok
            simp only [Except.ok.injEq] at hok
            subst hok
            have hr := replaceYearMonth_some hrep2
            simp only [DateTime.lt]
            apply key_lt_of_dateOffset_lt now _ hn
            rw [hr]
            simp only [dateOffset]
            omega
        · rename_i hle h12
          cases hrep3 : replaceMonth cand (now.month + 1) with
          | none => rw [hrep3] at hok; simp at hok
          | some r =>
            rw [hrep3] at hok
            simp only [Except.ok.injEq] at hok
            subst hok
            have hr := replaceMonth_some hrep3
            simp only [DateTime.lt]
            apply key_lt_of_dateOffset_lt now _ hn
            rw [hr]
            simp only [dateOffset]
            omega
      · rename_i hnle
        simp only [Except.ok.injEq] at hok
        subst hok
        simp only [DateTime.le] at hnle
        simp only [DateTime.lt]
        omega

/-- Witness for C4: a concrete daily 09:00 schedule evaluated at
Wednesday 2024-01-03 10:00 yields 2024-01-04 09:00, strictly later. -/
theorem nextExecutionStrictlyFuture_witness :
    DateTime.lt wedTen ⟨2024, 1, 4, 9, 0, 0, 0⟩ :=
  nextExecutionStrictlyFuture dailySchedule wedTen ⟨2024, 1, 4, 9, 0, 0, 0⟩
    (Or.inl rfl) (by decide) (by decide) (by decide)

/-- C1 (code bug): executing a `once` schedule does not terminate it.
`calculate_next_execution_time` has no `once` branch, so the default
`now + 1 hour` applies: after the first execution at 2024-01-03
09:00 the schedule is still `is_active = true` with
`next_execution = 10:00` rather than `false`/`null`, and a second
tick at 10:00 materializes another Post instead of being a no-op. -/
theorem onceScheduleNotTerminal :
    (schedAfter onceSchedule ⟨2024, 1, 3, 9, 0, 0, 0⟩).is_active = true ∧
    (schedAfter onceSchedule ⟨2024, 1, 3, 9, 0, 0, 0⟩).next_execution
      = some ⟨2024, 1, 3, 10, 0, 0, 0⟩ ∧
    postsMaterialized (executeSchedule (schedAfter onceSchedule ⟨2024, 1, 3, 9, 0, 0, 0⟩)
      ⟨2024, 1, 3, 10, 0, 0, 0⟩) = 1 := by
  decide

/-- C2 (code bug): redelivering the same due tick for the same
schedule version keeps two materialized Posts, not one —
`execute_schedule` has no version guard, no due-window check, and no
duplicate-discard path. -/
theorem doubleDeliveryKeepsTwoPosts :
    sameVersionDoubleDelivery dailySchedule wedTen = 2 := by
  decide

/-- C5 (code bug): 2024-01-03 is a Wednesday (`weekday() = 2`), yet
for `day_of_week = 3` (Wednesday in the source's own "Monday = 1"
comment) at Wednesday 10:00 the calculator returns Thursday
2024-01-04 09:00 — one day ahead — instead of the following
Wednesday 2024-01-10 09:00: `days_ahead = day_of_week - now.weekday()`
mixes the 1-based parameter with Python's 0-based weekday. -/
theorem weeklyWednesdayOffByOne :
    weekdayNat wedTen = 2 ∧
    calculateNextExecutionTime weeklySchedule wedTen = .ok ⟨2024, 1, 4, 9, 0, 0, 0⟩ ∧
    (⟨2024, 1, 4, 9, 0, 0, 0⟩ : DateTime) ≠ ⟨2024, 1, 10, 9, 0, 0, 0⟩ := by
  decide

/-- C6 (code bug): a monthly schedule with the valid parameter
`day_of_month = 31` makes the calculator raise `ValueError` when the
current month is shorter (`now.replace(day=31)` in February 2024),
instead of clipping to the month's last day. -/
theorem monthlyDay31RaisesInFebruary :
    DateTime.Valid ⟨2024, 2, 10, 12, 0, 0, 0⟩ ∧
    ValidParams sdMonthly31 ∧
    calculateNextExecutionTime monthlySchedule ⟨2024, 2, 10, 12, 0, 0, 0⟩
      = .error "ValueError" := by
  decide

/-- C7 counterexample: with a 3-item queue and stored cursor 4 the
claim predicts item `queue[4 mod 3] = itemB` with next cursor
`5 mod 3 = 2`, but the code resets an out-of-range cursor to 0 and
returns `itemA` with next cursor 1. -/
theorem cursorOutOfRangeResetsToZero :
    advanceCursor [itemA, itemB, itemC] 4 = .item itemA 1 ∧
    CursorResult.item itemA 1 ≠ .item itemB 2 := by
  decide

/-- C7 amended: for the nonnegative cursors the code actually stores
(the index starts at 0 and is always rewritten to `(i+1) % len`), an
empty queue yields the no-content condition, and otherwise an item is
returned without any index error: the item at the stored cursor when
it is in range, the item at 0 when the stored cursor is out of range
(reset, not modulo), with the next cursor always in `[0, len)`. -/
theorem advanceCursorNormalized (q : List ContentItem) (cursor : Int)
    (hc : 0 ≤ cursor) :
    (q = [] → advanceCursor q cursor = .noContent) ∧
    (q ≠ [] → ∃ c next, advanceCursor q cursor = .item c next ∧
      q.get? (if cursor < (q.length : Int) then cursor.toNat else 0) = some c ∧
      next = ((if cursor < (q.length : Int) then cursor else 0) + 1) % (q.length : Int) ∧
      0 ≤ next ∧ next < (q.length : Int)) := by
  constructor
  · intro h
    simp [advanceCursor, h]
  · intro h
    have hlen : 0 < q.length := List.length_pos.mpr h
    simp only [advanceCursor]
    rw [if_neg h]
    by_cases hge : cursor ≥ (q.length : Int)
    · have hnlt : ¬ cursor < (q.length : Int) := by omega
      rw [if_pos hge, if_neg hnlt, if_neg hnlt]
      obtain ⟨c, hc0⟩ : ∃ c, q.get? 0 = some c := by
        cases q with
        | nil => exact absurd rfl h
        | cons a l => exact ⟨a, rfl⟩
      have hpy : pyIndex q 0 = some c := by
        unfold pyIndex
        rw [if_pos (by omega)]
        simpa using hc0
      rw [hpy]
      refine ⟨c, (0 + 1) % (q.length : Int), rfl, hc0, rfl, ?_, ?_⟩
      · exact Int.emod_nonneg _ (by omega)
      · exact Int.emod_lt_of_pos _ (by omega)
    · have hlt2 : cursor < (q.length : Int) := by omega
      rw [if_neg hge, if_pos hlt2, if_pos hlt2]
      have hlt : cursor.toNat < q.length := by omega
      obtain ⟨c, hc0⟩ : ∃ c, q.get? cursor.toNat = some c :=
        ⟨q.get ⟨cursor.toNat, hlt⟩, List.get?_eq_get hlt⟩
      have hpy : pyIndex q cursor = some c := by
        unfold pyIndex
        rw [if_pos hc]
        exact hc0
      rw [hpy]
      refine ⟨c, (cursor + 1) % (q.length : Int), rfl, hc0, rfl, ?_, ?_⟩
      · exact Int.emod_nonneg _ (by omega)
      · exact Int.emod_lt_of_pos _ (by omega)

/-- Witness for the amended C7 at a concrete queue and cursor. -/
theorem advanceCursorNormalized_witness :
    ∃ c next, advanceCursor [itemA] 0 = .item c next ∧ 0 ≤ next ∧
      next < (([itemA] : List ContentItem).length : Int) := by
  have h := (advanceCursorNormalized [itemA] 0 (by decide)).2 (by decide)
  obtain ⟨c, next, h1, h2, h3, h4, h5⟩ := h
  exact ⟨c, next, h1, h4, h5⟩

/-- C8 counterexample: a `custom` schedule whose expression is
unparsable garbage is not rejected with `InvalidRecurrenceParams`;
both calculators silently return `now + 1 hour`
(2024-01-03 10:00 → 11:00). -/
theorem customUnparsableNotRejected :
    calculateNextExecutionTime customSchedule wedTen = .ok ⟨2024, 1, 3, 11, 0, 0, 0⟩ ∧
    calculateNextExecutionApi "custom" sdCustomGarbage wedTen
      = .ok ⟨2024, 1, 3, 11, 0, 0, 0⟩ := by
  decide

/-- C8 amended: for every `custom` schedule the calculators ignore
the expression entirely and return the silent default `now + 1 hour`;
no custom input is ever rejected as `InvalidRecurrenceParams`. -/
theorem customAlwaysSilentOneHourDefault (s : Schedule) (now : DateTime)
    (hc : s.schedule_type = "custom") :
    calculateNextExecutionTime s now = .ok (addOneHour now) ∧
    calculateNextExecutionApi "custom" s.schedule_data now = .ok (addOneHour now) := by
  unfold calculateNextExecutionTime calculateNextExecutionApi
  rw [hc]
  simp only [String.reduceEq, reduceIte]
  refine ⟨?_, ?_⟩ <;> trivial

/-- Witness for the amended C8 at a concrete custom schedule. -/
theorem customAlwaysSilentOneHourDefault_witness :
    calculateNextExecutionTime customSchedule wedTen = .ok (addOneHour wedTen) :=
  (customAlwaysSilentOneHourDefault customSchedule wedTen rfl).1

/-- C9 counterexample: the source calculator takes no `now`
parameter — it reads the wall clock inside the function — so two
invocations with identical source-level inputs (the same schedule;
same kind and params) differ when the hidden clock reading differs:
a daily 09:00 schedule invoked at 08:00 yields same-day 09:00, at
10:00 it yields next-day 09:00. -/
theorem calculatorDependsOnHiddenClock :
    calculateNextExecutionTime dailySchedule ⟨2024, 1, 3, 8, 0, 0, 0⟩ ≠
      calculateNextExecutionTime dailySchedule ⟨2024, 1, 3, 10, 0, 0, 0⟩ := by
  decide

/-- C9 amended: the calculator is a deterministic pure function of
the schedule's `(schedule_type, schedule_data)` and the clock
instant read inside the function; no other schedule field or hidden
state influences the result. -/
theorem calculatorDeterministicGivenClock (s1 s2 : Schedule) (now : DateTime)
    (ht : s1.schedule_type = s2.schedule_type)
    (hd : s1.schedule_data = s2.schedule_data) :
    calculateNextExecutionTime s1 now = calculateNextExecutionTime s2 now := by
  unfold calculateNextExecutionTime
  rw [ht, hd]

/-- Witness for the amended C9: two schedules agreeing only on type
and data (differing in activity, queue, cursor, platforms) yield the
same result at the same clock instant. -/
theorem calculatorDeterministicGivenClock_witness :
    calculateNextExecutionTime dailySchedule wedTen =
      calculateNextExecutionTime ⟨false, "daily", sdDaily, [], 5, [], none, none⟩ wedTen :=
  calculatorDeterministicGivenClock dailySchedule
    ⟨false, "daily", sdDaily, [], 5, [], none, none⟩ wedTen rfl rfl

end Automation
